import Mathlib

/-!
Shallow embedding of `src/libstd/rt/mod.rs` (the runtime bootstrap and
runtime-context query of the old Rust M:N scheduler runtime), together with
theorems settling the specification claims about it.

The embedding models the orchestration layer of the runtime:
* `run` (rt/mod.rs lines 219-303): builds `nthreads` schedulers sharing one
  work queue and one sleeper list, seeds the root task on scheduler 0, runs
  each scheduler on a thread, joins, and returns the exit code cell.
* `on_exit` (lines 255-274): the root task's termination callback.
* `start` (lines 181-188): init, run, cleanup.
* `context` / `RuntimeContext` (lines 305-352): the runtime-context query.

Side effects (allocations, handle sends, enqueues, thread operations) are
made observable as an event trace; shared structures are identified by
allocation ids, so that "the same underlying work queue" is "the same id".
External inputs that the code reads (the configured thread count, the number
of cores, the programmatically recorded exit status, and whether/how the
scheduler threads invoke the root task's termination callback) are fields of
`RunConfig`.
-/

namespace RustRt

/-- Observable events of one bootstrap run, in program order. -/
inductive RtEvent where
  /-- `SleeperList::new()` allocated the sleeper list with this id. -/
  | newSleeperList (id : Nat)
  /-- `WorkQueue::new()` allocated the shared work queue with this id. -/
  | newWorkQueue (id : Nat)
  /-- `~UvEventLoop::new()` allocated an event loop with this id. -/
  | newEventLoop (id : Nat)
  /-- `Scheduler::new(loop_, work_queue.clone(), sleepers.clone())`:
  scheduler `idx` constructed from event loop `loopId` and clones of the
  structures `wqId` and `slId`. -/
  | newScheduler (idx loopId wqId slId : Nat)
  /-- `sched.make_handle()` for scheduler `idx`. -/
  | makeHandle (idx : Nat)
  /-- `Task::new_root(&mut scheds[0].stack_pool, main)`: the root task is
  built, drawing its stack from the stack pool of scheduler `poolSched`. -/
  | newRootTask (poolSched : Nat)
  /-- `main_task.death.on_exit = Some(on_exit)`: the termination callback is
  attached to the root task. -/
  | setOnExit
  /-- `scheds[idx].enqueue_task(main_task)`. -/
  | enqueueTask (idx : Nat)
  /-- `Thread::start { sched.run() }` for scheduler `idx`. -/
  | threadStart (idx : Nat)
  /-- `handle.send(Shutdown)` to the handle of scheduler `idx`
  (inside `on_exit`). -/
  | sendShutdown (idx : Nat)
  /-- `(*exit_code_clone.get()).store(v, SeqCst)` (inside `on_exit`). -/
  | storeExitCode (v : Int)
  /-- The thread of scheduler `idx` is joined (drop of the `threads` vector
  at `{ let _threads = threads; }`). -/
  | threadJoin (idx : Nat)
  /-- `(*exit_code.get()).load(SeqCst)`: the final read of the exit cell. -/
  | loadExitCode
  /-- `init(argc, argv, crate_map)` in `start`. -/
  | rtInit
  /-- `cleanup()` in `start`. -/
  | rtCleanup
  deriving DecidableEq, Repr

/-- A scheduler as configured by `run`: its position in the `scheds` vector,
the id of its own event loop, the ids of the shared structures it received
clones of, and its local run queue of task ids (`enqueue_task` appends). -/
structure Scheduler where
  idx : Nat
  eventLoopId : Nat
  workQueueId : Nat
  sleeperListId : Nat
  queue : List Nat
  deriving DecidableEq, Repr

/-- State threaded through the scheduler-construction loop of `run`:
the next fresh event-loop allocation id, the `scheds` vector, the `handles`
vector (a handle is identified by the index of its scheduler), and the
event trace so far. -/
structure BuildState where
  nextLoopId : Nat
  scheds : List Scheduler
  handles : List Nat
  events : List RtEvent
  deriving DecidableEq, Repr

/-- The loop `for nthreads.times { ... }` of `run` (lines 237-245): each
iteration allocates a fresh event loop, constructs a scheduler from it and
from clones of the shared work queue `wqId` and sleeper list `slId`, makes a
handle, and pushes both. -/
def buildLoop (wqId slId : Nat) : Nat → BuildState → BuildState
  | 0, st => st
  | Nat.succ n, st =>
    let loopId := st.nextLoopId
    let idx := st.scheds.length
    let sched : Scheduler :=
      { idx := idx, eventLoopId := loopId, workQueueId := wqId,
        sleeperListId := slId, queue := [] }
    buildLoop wqId slId n
      { nextLoopId := loopId + 1
        scheds := st.scheds ++ [sched]
        handles := st.handles ++ [idx]
        events := st.events ++
          [RtEvent.newEventLoop loopId,
           RtEvent.newScheduler idx loopId wqId slId,
           RtEvent.makeHandle idx] }

/-- `static DEFAULT_ERROR_CODE: int = 101;` (line 221). -/
def DEFAULT_ERROR_CODE : Int := 101

/-- Modelled from the spec: `rt::util::get_exit_status` (rt/util.rs, not
under src/). Per the spec's process entry/exit contract, the bootstrap
returns "a programmatically set status value if one was recorded during the
run", and 0 on normal completion otherwise; so the global exit status is the
recorded value when one was set, else 0. -/
def get_exit_status (recorded : Option Int) : Int :=
  match recorded with
  | some v => v
  | none => 0

/-- Modelled from the spec: `rt::util::default_sched_threads` (rt/util.rs,
not under src/). The spec says "the bootstrap accepts a thread-count
configuration (recognized option: thread count, default = core count)", so
the thread count is the configured one when supplied, else the core count. -/
def default_sched_threads (configured : Option Nat) (ncores : Nat) : Nat :=
  match configured with
  | some n => n
  | none => ncores

/-- The state captured by the `on_exit` closure (lines 254-274): the `Cell`
holding the scheduler handles (`None` once taken) and the contents of the
shared `UnsafeAtomicRcBox<AtomicInt>` exit-code cell. -/
structure OnExitCtx where
  handles : Option (List Nat)
  exitCode : Int
  deriving DecidableEq, Repr

/-- The `on_exit` closure (lines 255-274). `handles.take()` empties the
cell; taking from an already-empty `Cell` fails (modelled as `none`, since
`Cell::take` on an empty cell is a hard runtime failure in the old libstd,
which is not under src/). Otherwise it sends `Shutdown` to every handle and
then stores the exit code: the global exit status on success, or
`DEFAULT_ERROR_CODE` on failure. -/
def on_exit (recorded : Option Int) (ctx : OnExitCtx) (exit_success : Bool) :
    Option (OnExitCtx × List RtEvent) :=
  match ctx.handles with
  | none => none
  | some hs =>
    let code := if exit_success then get_exit_status recorded
                else DEFAULT_ERROR_CODE
    some ({ handles := none, exitCode := code },
          hs.map RtEvent.sendShutdown ++ [RtEvent.storeExitCode code])

/-- `scheds[i].enqueue_task(tid)`: append the task to scheduler `i`'s local
run queue (the scheduler internals are in rt/sched.rs, not under src/;
the spec's Scheduler owns a "local run queue" that enqueued tasks join). -/
def enqueue_task (scheds : List Scheduler) (i : Nat) (tid : Nat) :
    List Scheduler :=
  match scheds.get? i with
  | none => scheds
  | some s => scheds.set i { s with queue := s.queue ++ [tid] }

/-- External inputs of one bootstrap run: the configured thread count (the
recognized thread-count option, if supplied), the number of cores, the
programmatically recorded exit status (if one was set during the run), and
the outcome of the root task tree: `none` when the root task's termination
callback never runs before the schedulers stop, `some s` when the scheduler
threads invoke it with success flag `s`. -/
structure RunConfig where
  configuredThreads : Option Nat
  ncores : Nat
  recordedStatus : Option Int
  rootOutcome : Option Bool
  deriving DecidableEq, Repr

/-- The result of `run`: the returned exit code, the event trace, the
scheduler states at the moment the scheduler threads are spawned (after the
root task was enqueued), the contents of the shared work queue at that
moment, and the final state of the `on_exit` context. -/
structure RunResult where
  exitCode : Int
  events : List RtEvent
  scheds : List Scheduler
  workQueue : List Nat
  finalCtx : OnExitCtx
  deriving DecidableEq, Repr

/-- The root task's id in the model. -/
def rootTaskId : Nat := 0

/-- `run` (lines 219-303). Allocation ids: the sleeper list is allocation 0,
the work queue allocation 1 (their creation order at lines 227-229), and
event loops take fresh ids from 2 on. After building the schedulers, the
exit-code cell is created holding 0, the root task is built from scheduler
0's stack pool, gets the `on_exit` callback, and is enqueued on scheduler 0.
Each scheduler then runs on its own thread: the vector is drained from the
back (`scheds.pop()`), so threads start in reverse index order. During
scheduler execution the root task's termination callback fires with the
configured outcome (or never). The threads are then joined (drop of
`threads`; `Thread`'s join-on-drop is in rt/thread.rs, not under src/ -
modelled from the spec: "runs each scheduler on its own OS thread, joins
them") and the exit cell is loaded and returned. -/
def run (cfg : RunConfig) : RunResult :=
  let nthreads := default_sched_threads cfg.configuredThreads cfg.ncores
  let sleepersId := 0
  let workQueueId := 1
  let built := buildLoop workQueueId sleepersId nthreads
    { nextLoopId := 2, scheds := [], handles := [],
      events := [RtEvent.newSleeperList sleepersId,
                 RtEvent.newWorkQueue workQueueId] }
  let ctx0 : OnExitCtx := { handles := some built.handles, exitCode := 0 }
  let scheds1 := enqueue_task built.scheds 0 rootTaskId
  let setupEvents := built.events ++
    [RtEvent.newRootTask 0, RtEvent.setOnExit, RtEvent.enqueueTask 0]
  let startEvents := built.scheds.reverse.map (fun s => RtEvent.threadStart s.idx)
  let stepped :=
    match cfg.rootOutcome with
    | none => (ctx0, ([] : List RtEvent))
    | some success =>
      match on_exit cfg.recordedStatus ctx0 success with
      | none => (ctx0, [])
      | some (c, evs) => (c, evs)
  let joinEvents := built.scheds.reverse.map (fun s => RtEvent.threadJoin s.idx)
  { exitCode := stepped.1.exitCode
    events := setupEvents ++ startEvents ++ stepped.2 ++ joinEvents ++
      [RtEvent.loadExitCode]
    scheds := scheds1
    workQueue := []
    finalCtx := stepped.1 }

/-- `start` (lines 181-188): `init`, then `run`, then `cleanup`, returning
`run`'s exit code unchanged. Yields the exit code and the full trace. -/
def start (cfg : RunConfig) : Int × List RtEvent :=
  let r := run cfg
  (r.exitCode, RtEvent.rtInit :: (r.events ++ [RtEvent.rtCleanup]))

/-- `RuntimeContext` (lines 309-319): the four possible contexts in which
Rust code may be executing. -/
inductive RuntimeContext where
  | GlobalContext
  | SchedulerContext
  | TaskContext
  | OldTaskContext
  deriving DecidableEq, Repr

/-- The thread-local facts `context()` consults: whether
`rust_try_get_task()` returns a non-null legacy task pointer, whether a
`Scheduler` exists in local storage (`Local::exists::<Scheduler>()`), and
whether that scheduler is in task context (`sched.in_task_context()`). -/
structure ContextEnv where
  legacyTaskNonNull : Bool
  schedulerExists : Bool
  inTaskContext : Bool
  deriving DecidableEq, Repr

/-- `context` (lines 322-352). The legacy-runtime check comes first; only
when the legacy task pointer is null does the query consult local storage.
The `SchedulerContext`/`TaskContext` answer is computed by filling an
initially-empty `Cell` inside `Local::borrow` and taking it afterwards
(the `Option` and its final take model `Cell::new_empty`/`put_back`/
`take`; the cell is always filled before the take). -/
def context (e : ContextEnv) : RuntimeContext :=
  if e.legacyTaskNonNull then
    RuntimeContext.OldTaskContext
  else
    if e.schedulerExists then
      let cell : Option RuntimeContext := none
      let cell :=
        if e.inTaskContext then
          some RuntimeContext.TaskContext
        else
          some RuntimeContext.SchedulerContext
      cell.getD RuntimeContext.OldTaskContext
    else
      RuntimeContext.GlobalContext

/-- Task states of the spec's data model (section 3). -/
inductive TaskState where
  | Runnable
  | Running
  | Blocked
  | Dead
  deriving DecidableEq, Repr

/-- Modelled from the spec: the Task death machinery (rt/task.rs and
rt/kill.rs, not under src/). A task records its state and the list of
invocations its termination callback has received (each entry one call,
carrying the success flag). -/
structure SpecTask where
  state : TaskState
  onExitCalls : List Bool
  deriving DecidableEq, Repr

/-- Modelled from the spec: "created by a spawn request ... with state
Runnable"; no callback invocation has happened yet. -/
def spawnTask : SpecTask :=
  { state := TaskState.Runnable, onExitCalls := [] }

/-- Modelled from the spec: "transitions to Dead when its body completes, at
which point ... its termination callback fires" with "a boolean
exited-normally flag"; the callback fires exactly once, at this transition
and nowhere else. -/
def completeTask (t : SpecTask) (bodyExitedNormally : Bool) : SpecTask :=
  { state := TaskState.Dead,
    onExitCalls := t.onExitCalls ++ [bodyExitedNormally] }

/-- Modelled from the spec: a full uninterrupted lifecycle of a task whose
body runs to completion - "transitions to Running when a Scheduler switches
onto it", then its body either returns normally or terminates abnormally,
upon which `completeTask` fires the callback. -/
def runTask (t : SpecTask) (bodyExitedNormally : Bool) : SpecTask :=
  let running := { t with state := TaskState.Running }
  completeTask running bodyExitedNormally

/-- Is the event a `newWorkQueue` allocation? -/
def isNewWorkQueueEv : RtEvent → Bool
  | RtEvent.newWorkQueue _ => true
  | _ => false

/-- Is the event a `newSleeperList` allocation? -/
def isNewSleeperListEv : RtEvent → Bool
  | RtEvent.newSleeperList _ => true
  | _ => false

/-- Is the event a root-task construction? -/
def isNewRootTaskEv : RtEvent → Bool
  | RtEvent.newRootTask _ => true
  | _ => false

/-- Is the event a task enqueue on some scheduler? -/
def isEnqueueTaskEv : RtEvent → Bool
  | RtEvent.enqueueTask _ => true
  | _ => false

/-- Is the event a thread start? -/
def isThreadStartEv : RtEvent → Bool
  | RtEvent.threadStart _ => true
  | _ => false

/-- Is the event a thread join? -/
def isThreadJoinEv : RtEvent → Bool
  | RtEvent.threadJoin _ => true
  | _ => false

/-- Is the event a store to the exit-code cell? -/
def isStoreExitCodeEv : RtEvent → Bool
  | RtEvent.storeExitCode _ => true
  | _ => false

/-- Is the event a `Shutdown` send? -/
def isSendShutdownEv : RtEvent → Bool
  | RtEvent.sendShutdown _ => true
  | _ => false

/-- The scheduler index of a thread-start event, if it is one. -/
def threadStartIdx : RtEvent → Option Nat
  | RtEvent.threadStart i => some i
  | _ => none

/-! ### Closed form of the scheduler-construction loop -/

/-- Closed form of `buildLoop`: iteration `k` (counting from 0) constructs
scheduler `st.scheds.length + k` around the fresh event loop
`st.nextLoopId + k` and clones of the two shared structures. -/
theorem buildLoop_eq (wqId slId : Nat) (n : Nat) (st : BuildState) :
    buildLoop wqId slId n st =
      { nextLoopId := st.nextLoopId + n
        scheds := st.scheds ++ (List.range n).map (fun k =>
          { idx := st.scheds.length + k, eventLoopId := st.nextLoopId + k,
            workQueueId := wqId, sleeperListId := slId, queue := [] })
        handles := st.handles ++ (List.range n).map (fun k => st.scheds.length + k)
        events := st.events ++ ((List.range n).map (fun k =>
          [RtEvent.newEventLoop (st.nextLoopId + k),
           RtEvent.newScheduler (st.scheds.length + k) (st.nextLoopId + k) wqId slId,
           RtEvent.makeHandle (st.scheds.length + k)])).flatten } := by
  induction n generalizing st with
  | zero => simp [buildLoop]
  | succ n ih =>
    rw [buildLoop, ih]
    simp only [BuildState.mk.injEq, List.range_succ_eq_map, List.map_cons,
      List.map_map, List.flatten_cons, List.length_append, List.length_cons,
      List.length_nil, List.append_assoc, List.cons_append, List.nil_append,
      List.singleton_append, Nat.add_zero]
    refine ⟨by omega, ?_, ?_, ?_⟩
    · refine congrArg _ (congrArg _ ?_)
      refine List.map_congr_left fun k _ => ?_
      simp [Function.comp, Scheduler.mk.injEq]
      omega
    · refine congrArg _ (congrArg _ ?_)
      refine List.map_congr_left fun k _ => ?_
      simp [Function.comp]
      omega
    · refine congrArg _ (congrArg _ (congrArg _ (congrArg _
        (congrArg List.flatten ?_))))
      refine List.map_congr_left fun k _ => ?_
      simp only [Function.comp, List.cons.injEq, RtEvent.newEventLoop.injEq,
        RtEvent.newScheduler.injEq, RtEvent.makeHandle.injEq, and_true]
      omega

/-! ### Characterization of `run`'s components -/

/-- The schedulers `run` spawns threads for: scheduler `k` owns event loop
`2 + k` and clones of work queue 1 and sleeper list 0, and the root task
sits in scheduler 0's local queue. -/
theorem run_scheds (cfg : RunConfig) (n : Nat)
    (hn : default_sched_threads cfg.configuredThreads cfg.ncores = n) :
    (run cfg).scheds =
      enqueue_task ((List.range n).map (fun k =>
        { idx := k, eventLoopId := 2 + k, workQueueId := 1,
          sleeperListId := 0, queue := [] })) 0 rootTaskId := by
  simp only [run, buildLoop_eq, hn]
  cases cfg.rootOutcome with
  | none => simp
  | some s => simp [on_exit]

/-- `run` never touches the shared work queue. -/
theorem run_workQueue (cfg : RunConfig) : (run cfg).workQueue = [] := by
  simp only [run]

/-- If the root task's termination callback never runs, the exit cell keeps
its initial value 0. -/
theorem run_exitCode_none (cfg : RunConfig) (h : cfg.rootOutcome = none) :
    (run cfg).exitCode = 0 := by
  simp only [run, h]

/-- If the callback runs with success flag `s`, the returned exit code is
the global exit status on success and `DEFAULT_ERROR_CODE` on failure. -/
theorem run_exitCode_some (cfg : RunConfig) (s : Bool)
    (h : cfg.rootOutcome = some s) :
    (run cfg).exitCode =
      if s then get_exit_status cfg.recordedStatus else DEFAULT_ERROR_CODE := by
  simp only [run, h, buildLoop_eq, on_exit]

/-- The full event trace of `run`, in program order. -/
theorem run_events (cfg : RunConfig) (n : Nat)
    (hn : default_sched_threads cfg.configuredThreads cfg.ncores = n) :
    (run cfg).events =
      (RtEvent.newSleeperList 0 :: RtEvent.newWorkQueue 1 ::
        ((List.range n).map (fun k =>
          [RtEvent.newEventLoop (2 + k),
           RtEvent.newScheduler k (2 + k) 1 0,
           RtEvent.makeHandle k])).flatten) ++
      [RtEvent.newRootTask 0, RtEvent.setOnExit, RtEvent.enqueueTask 0] ++
      ((List.range n).map RtEvent.threadStart).reverse ++
      (match cfg.rootOutcome with
       | none => []
       | some s => (List.range n).map RtEvent.sendShutdown ++
           [RtEvent.storeExitCode
             (if s then get_exit_status cfg.recordedStatus
              else DEFAULT_ERROR_CODE)]) ++
      ((List.range n).map RtEvent.threadJoin).reverse ++
      [RtEvent.loadExitCode] := by
  simp only [run, buildLoop_eq, hn]
  cases cfg.rootOutcome with
  | none =>
    simp [List.map_reverse, Function.comp_def]
  | some s =>
    simp [on_exit, List.map_reverse, Function.comp_def]

/-- After the root task's termination callback has run, the handle cell is
emptied and the exit cell holds the final code. -/
theorem run_finalCtx_some (cfg : RunConfig) (s : Bool)
    (h : cfg.rootOutcome = some s) :
    (run cfg).finalCtx =
      { handles := none,
        exitCode := if s then get_exit_status cfg.recordedStatus
                    else DEFAULT_ERROR_CODE } := by
  simp only [run, h, buildLoop_eq, on_exit]

/-- The scheduler-construction events satisfy no predicate that rejects
event-loop allocations, scheduler constructions and handle creations. -/
theorem countP_build_flatten (p : RtEvent → Bool) (n : Nat)
    (h1 : ∀ i, p (RtEvent.newEventLoop i) = false)
    (h2 : ∀ i j w s, p (RtEvent.newScheduler i j w s) = false)
    (h3 : ∀ i, p (RtEvent.makeHandle i) = false) :
    (((List.range n).map (fun k =>
      [RtEvent.newEventLoop (2 + k),
       RtEvent.newScheduler k (2 + k) 1 0,
       RtEvent.makeHandle k])).flatten).countP p = 0 := by
  rw [List.countP_eq_zero]
  intro a ha
  rw [List.mem_flatten] at ha
  obtain ⟨l, hl, hal⟩ := ha
  rw [List.mem_map] at hl
  obtain ⟨k, _, rfl⟩ := hl
  simp only [List.mem_cons, List.mem_singleton, List.not_mem_nil,
    or_false] at hal
  rcases hal with rfl | rfl | rfl
  · simp [h1]
  · simp [h2]
  · simp [h3]

/-- Fully explicit scheduler states at thread-spawn time: scheduler `k` has
event loop `2 + k`, clones of work queue 1 and sleeper list 0, and its local
queue holds exactly the root task when `k = 0` and nothing otherwise. -/
theorem run_scheds_explicit (cfg : RunConfig) (n : Nat)
    (hn : default_sched_threads cfg.configuredThreads cfg.ncores = n) :
    (run cfg).scheds =
      (List.range n).map (fun k =>
        { idx := k, eventLoopId := 2 + k, workQueueId := 1,
          sleeperListId := 0,
          queue := if k = 0 then [rootTaskId] else [] }) := by
  rw [run_scheds cfg n hn]
  cases n with
  | zero => simp [enqueue_task]
  | succ m =>
    rw [List.range_succ_eq_map]
    simp only [List.map_cons, List.map_map, enqueue_task, List.get?_cons_zero,
      List.set_cons_zero, List.nil_append]
    refine congrArg₂ _ (by simp) ?_
    refine List.map_congr_left fun k _ => ?_
    simp [Function.comp, Nat.succ_ne_zero]

/-- Helper for C5: the scheduler-construction events contain nothing that a
filter rejecting event-loop allocations, scheduler constructions and handle
creations keeps. -/
theorem filterMap_build_flatten_nil {α : Type} (f : RtEvent → Option α)
    (n : Nat)
    (h1 : ∀ i, f (RtEvent.newEventLoop i) = none)
    (h2 : ∀ i j w s, f (RtEvent.newScheduler i j w s) = none)
    (h3 : ∀ i, f (RtEvent.makeHandle i) = none) :
    (((List.range n).map (fun k =>
      [RtEvent.newEventLoop (2 + k),
       RtEvent.newScheduler k (2 + k) 1 0,
       RtEvent.makeHandle k])).flatten).filterMap f = [] := by
  rw [List.filterMap_eq_nil_iff]
  intro a ha
  rw [List.mem_flatten] at ha
  obtain ⟨l, hl, hal⟩ := ha
  rw [List.mem_map] at hl
  obtain ⟨k, _, rfl⟩ := hl
  simp only [List.mem_cons, List.mem_singleton, List.not_mem_nil,
    or_false] at hal
  rcases hal with rfl | rfl | rfl
  · exact h1 _
  · exact h2 _ _ _ _
  · exact h3 _

/-! ### The claims -/

/-- C1: run's process exit status is 101 when the root task's termination
callback receives `success = false`, and the globally recorded exit status
when it receives `success = true`; in particular it is 0 on normal
completion when no status was recorded programmatically. -/
theorem c1_process_exit_status (cfg : RunConfig) (s : Bool)
    (h : cfg.rootOutcome = some s) :
    (run cfg).exitCode =
      (if s then get_exit_status cfg.recordedStatus else 101) ∧
    (cfg.recordedStatus = none → s = true → (run cfg).exitCode = 0) := by
  have h1 := run_exitCode_some cfg s h
  refine ⟨by simpa [DEFAULT_ERROR_CODE] using h1, ?_⟩
  intro hr hs
  subst hs
  simp [h1, get_exit_status, hr]

/-- C1 witness: with the callback receiving `false` the exit code is 101;
receiving `true` with recorded status 7 it is 7; receiving `true` with no
recorded status it is 0. -/
theorem c1_process_exit_status_witness :
    (run { configuredThreads := none, ncores := 1, recordedStatus := none,
           rootOutcome := some false }).exitCode = 101 ∧
    (run { configuredThreads := none, ncores := 1, recordedStatus := some 7,
           rootOutcome := some true }).exitCode = 7 ∧
    (run { configuredThreads := none, ncores := 1, recordedStatus := none,
           rootOutcome := some true }).exitCode = 0 := by
  refine ⟨?_, ?_, ?_⟩
  · have h := c1_process_exit_status
      { configuredThreads := none, ncores := 1, recordedStatus := none,
        rootOutcome := some false } false rfl
    simpa [get_exit_status] using h.1
  · have h := c1_process_exit_status
      { configuredThreads := none, ncores := 1, recordedStatus := some 7,
        rootOutcome := some true } true rfl
    simpa [get_exit_status] using h.1
  · exact (c1_process_exit_status
      { configuredThreads := none, ncores := 1, recordedStatus := none,
        rootOutcome := some true } true rfl).2 rfl rfl

/-- C2 (counterexample): the range of `context` is not the three-element set
{GlobalContext, SchedulerContext, TaskContext}: when the legacy task pointer
is non-null, `context` returns the fourth value `OldTaskContext`. -/
theorem c2_context_range_counterexample :
    context { legacyTaskNonNull := true, schedulerExists := false,
              inTaskContext := false } = RuntimeContext.OldTaskContext ∧
    RuntimeContext.OldTaskContext ≠ RuntimeContext.GlobalContext ∧
    RuntimeContext.OldTaskContext ≠ RuntimeContext.SchedulerContext ∧
    RuntimeContext.OldTaskContext ≠ RuntimeContext.TaskContext := by
  refine ⟨rfl, by decide, by decide, by decide⟩

/-- C2 (amended): whenever the legacy-runtime task pointer is null, the
runtime-context query returns one of the three values no-runtime-active,
scheduler-active-no-task or task-active; with the legacy pointer non-null it
returns a fourth value, `OldTaskContext`. -/
theorem c2_context_range (e : ContextEnv)
    (h : e.legacyTaskNonNull = false) :
    context e = RuntimeContext.GlobalContext ∨
    context e = RuntimeContext.SchedulerContext ∨
    context e = RuntimeContext.TaskContext := by
  obtain ⟨a, b, c⟩ := e
  simp only at h
  subst h
  cases b <;> cases c <;> simp [context]

/-- C2 witness: a concrete null-legacy-pointer environment lands in the
three-element range. -/
theorem c2_context_range_witness :
    context { legacyTaskNonNull := false, schedulerExists := true,
              inTaskContext := true } = RuntimeContext.GlobalContext ∨
    context { legacyTaskNonNull := false, schedulerExists := true,
              inTaskContext := true } = RuntimeContext.SchedulerContext ∨
    context { legacyTaskNonNull := false, schedulerExists := true,
              inTaskContext := true } = RuntimeContext.TaskContext :=
  c2_context_range
    { legacyTaskNonNull := false, schedulerExists := true,
      inTaskContext := true } rfl

/-- C7: a task's termination callback fires exactly once over its
lifecycle, and its boolean argument is `true` iff the body completed
without abnormal termination. -/
theorem c7_termination_callback_once (b : Bool) :
    (runTask spawnTask b).onExitCalls = [b] ∧
    (runTask spawnTask b).state = TaskState.Dead ∧
    ((runTask spawnTask b).onExitCalls = [true] ↔ b = true) := by
  cases b <;> simp [runTask, spawnTask, completeTask]

/-- C8: the legacy-runtime check has priority in `context`: a non-null
legacy task pointer yields `OldTaskContext` regardless of the scheduler
checks, and only a null pointer falls through to the
GlobalContext/SchedulerContext/TaskContext decision. -/
theorem c8_old_task_priority (e : ContextEnv) :
    (e.legacyTaskNonNull = true →
      context e = RuntimeContext.OldTaskContext) ∧
    (e.legacyTaskNonNull = false →
      context e =
        if e.schedulerExists then
          (if e.inTaskContext then RuntimeContext.TaskContext
           else RuntimeContext.SchedulerContext)
        else RuntimeContext.GlobalContext) := by
  obtain ⟨a, b, c⟩ := e
  cases a <;> cases b <;> cases c <;> simp [context]

/-- C8 witness: with a non-null legacy pointer and a scheduler present, the
query still answers `OldTaskContext`. -/
theorem c8_old_task_priority_witness :
    context { legacyTaskNonNull := true, schedulerExists := true,
              inTaskContext := false } = RuntimeContext.OldTaskContext :=
  (c8_old_task_priority
    { legacyTaskNonNull := true, schedulerExists := true,
      inTaskContext := false }).1 rfl

/-- C10: the exit-code cell starts at 0 and is written only by the root
task's termination callback: when that callback never executes, no store to
the cell appears in the trace and `run` returns exit status 0. -/
theorem c10_exit_defaults_zero (cfg : RunConfig)
    (h : cfg.rootOutcome = none) :
    (run cfg).exitCode = 0 ∧
    (run cfg).events.countP isStoreExitCodeEv = 0 ∧
    (run cfg).finalCtx.exitCode = 0 := by
  refine ⟨run_exitCode_none cfg h, ?_, ?_⟩
  · rw [run_events cfg _ rfl, h]
    simp only [List.countP_append, List.countP_cons, List.countP_nil,
      List.countP_reverse, List.countP_map]
    rw [countP_build_flatten isStoreExitCodeEv _ (fun _ => rfl)
      (fun _ _ _ _ => rfl) (fun _ => rfl)]
    simp [isStoreExitCodeEv, Function.comp_def, List.countP_eq_zero]
  · simp only [run, h]

/-- C10 witness: with one scheduler and the callback never firing, the exit
code is 0 and the trace has no exit-cell store. -/
theorem c10_exit_defaults_zero_witness :
    (run { configuredThreads := none, ncores := 1, recordedStatus := none,
           rootOutcome := none }).exitCode = 0 ∧
    (run { configuredThreads := none, ncores := 1, recordedStatus := none,
           rootOutcome := none }).events.countP isStoreExitCodeEv = 0 := by
  have h := c10_exit_defaults_zero
    { configuredThreads := none, ncores := 1, recordedStatus := none,
      rootOutcome := none } rfl
  exact ⟨h.1, h.2.1⟩

/-- C3: the bootstrap creates exactly `n` schedulers; the work queue and
the sleeper list are each created exactly once (as the first two events,
hence before any scheduler construction), every scheduler is constructed
with clones of those two structures (ids 1 and 0), and the event-loop
instances are pairwise distinct. -/
theorem c3_shared_queue_and_sleepers (cfg : RunConfig) (n : Nat)
    (hn : default_sched_threads cfg.configuredThreads cfg.ncores = n) :
    (run cfg).scheds.length = n ∧
    (∀ s ∈ (run cfg).scheds, s.workQueueId = 1 ∧ s.sleeperListId = 0) ∧
    ((run cfg).scheds.map (fun s => s.eventLoopId)).Nodup ∧
    (run cfg).events.countP isNewSleeperListEv = 1 ∧
    (run cfg).events.countP isNewWorkQueueEv = 1 ∧
    (run cfg).events.get? 0 = some (RtEvent.newSleeperList 0) ∧
    (run cfg).events.get? 1 = some (RtEvent.newWorkQueue 1) := by
  have hs := run_scheds_explicit cfg n hn
  have hb1 := countP_build_flatten isNewSleeperListEv n (fun _ => rfl)
    (fun _ _ _ _ => rfl) (fun _ => rfl)
  have hb2 := countP_build_flatten isNewWorkQueueEv n (fun _ => rfl)
    (fun _ _ _ _ => rfl) (fun _ => rfl)
  refine ⟨?_, ?_, ?_, ?_, ?_, ?_, ?_⟩
  · rw [hs]; simp
  · rw [hs]
    intro s hsm
    rw [List.mem_map] at hsm
    obtain ⟨k, _, rfl⟩ := hsm
    exact ⟨rfl, rfl⟩
  · rw [hs, List.map_map]
    have hcomp : ((fun s : Scheduler => s.eventLoopId) ∘ fun k =>
        ({ idx := k, eventLoopId := 2 + k, workQueueId := 1,
           sleeperListId := 0,
           queue := if k = 0 then [rootTaskId] else [] } : Scheduler)) =
        fun k => 2 + k := rfl
    rw [hcomp]
    exact (List.nodup_range n).map (fun a b hab => by omega)
  · cases ho : cfg.rootOutcome <;>
    · rw [run_events cfg n hn, ho]
      simp only [List.countP_append, List.countP_cons, List.countP_nil,
        List.countP_reverse, List.countP_map, hb1]
      simp [isNewSleeperListEv, Function.comp_def, List.countP_eq_zero]
  · cases ho : cfg.rootOutcome <;>
    · rw [run_events cfg n hn, ho]
      simp only [List.countP_append, List.countP_cons, List.countP_nil,
        List.countP_reverse, List.countP_map, hb2]
      simp [isNewWorkQueueEv, Function.comp_def, List.countP_eq_zero]
  · rw [run_events cfg n hn]
    simp [List.cons_append]
  · rw [run_events cfg n hn]
    simp [List.cons_append]

/-- C3 witness: with two cores and no configured thread count, two
schedulers exist, both holding clones of work queue 1 and sleeper list 0,
and the trace allocates the work queue exactly once. -/
theorem c3_shared_queue_and_sleepers_witness :
    (run { configuredThreads := none, ncores := 2, recordedStatus := none,
           rootOutcome := none }).scheds.length = 2 ∧
    (run { configuredThreads := none, ncores := 2, recordedStatus := none,
           rootOutcome := none }).events.countP isNewWorkQueueEv = 1 := by
  have h := c3_shared_queue_and_sleepers
    { configuredThreads := none, ncores := 2, recordedStatus := none,
      rootOutcome := none } 2 rfl
  exact ⟨h.1, h.2.2.2.2.1⟩

/-- C4: the bootstrap constructs exactly one root task, drawing its stack
from scheduler 0's stack pool, attaches the termination callback between
constructing and enqueueing it, performs exactly one enqueue, and that
enqueue places the root task in scheduler 0's local queue - every other
scheduler's queue and the shared work queue stay empty. -/
theorem c4_root_task_seeding (cfg : RunConfig) (n : Nat)
    (hn : default_sched_threads cfg.configuredThreads cfg.ncores = n)
    (hpos : 0 < n) :
    (run cfg).events.countP isNewRootTaskEv = 1 ∧
    (run cfg).events.countP isEnqueueTaskEv = 1 ∧
    (∃ pre post, (run cfg).events = pre ++
      [RtEvent.newRootTask 0, RtEvent.setOnExit, RtEvent.enqueueTask 0] ++
      post) ∧
    (∃ s0, (run cfg).scheds.get? 0 = some s0 ∧ s0.idx = 0 ∧
      s0.queue = [rootTaskId]) ∧
    (∀ s ∈ (run cfg).scheds, s.idx ≠ 0 → s.queue = []) ∧
    (run cfg).workQueue = [] := by
  have hb1 := countP_build_flatten isNewRootTaskEv n (fun _ => rfl)
    (fun _ _ _ _ => rfl) (fun _ => rfl)
  have hb2 := countP_build_flatten isEnqueueTaskEv n (fun _ => rfl)
    (fun _ _ _ _ => rfl) (fun _ => rfl)
  refine ⟨?_, ?_, ?_, ?_, ?_, run_workQueue cfg⟩
  · cases ho : cfg.rootOutcome <;>
    · rw [run_events cfg n hn, ho]
      simp only [List.countP_append, List.countP_cons, List.countP_nil,
        List.countP_reverse, List.countP_map, hb1]
      simp [isNewRootTaskEv, Function.comp_def, List.countP_eq_zero]
  · cases ho : cfg.rootOutcome <;>
    · rw [run_events cfg n hn, ho]
      simp only [List.countP_append, List.countP_cons, List.countP_nil,
        List.countP_reverse, List.countP_map, hb2]
      simp [isEnqueueTaskEv, Function.comp_def, List.countP_eq_zero]
  · refine ⟨RtEvent.newSleeperList 0 :: RtEvent.newWorkQueue 1 ::
      ((List.range n).map (fun k =>
        [RtEvent.newEventLoop (2 + k), RtEvent.newScheduler k (2 + k) 1 0,
         RtEvent.makeHandle k])).flatten,
      ((List.range n).map RtEvent.threadStart).reverse ++
      ((match cfg.rootOutcome with
        | none => []
        | some s => (List.range n).map RtEvent.sendShutdown ++
            [RtEvent.storeExitCode
              (if s then get_exit_status cfg.recordedStatus
               else DEFAULT_ERROR_CODE)]) ++
       (((List.range n).map RtEvent.threadJoin).reverse ++
        [RtEvent.loadExitCode])), ?_⟩
    rw [run_events cfg n hn]
    simp [List.cons_append, List.append_assoc]
  · rw [run_scheds_explicit cfg n hn]
    refine ⟨{ idx := 0, eventLoopId := 2, workQueueId := 1,
              sleeperListId := 0, queue := [rootTaskId] }, ?_, rfl, rfl⟩
    rw [List.get?_map, List.get?_range hpos]
    rfl
  · rw [run_scheds_explicit cfg n hn]
    intro s hsm hidx
    rw [List.mem_map] at hsm
    obtain ⟨k, _, rfl⟩ := hsm
    simp only at hidx
    simp [hidx]

/-- C4 witness: with one scheduler, the trace holds exactly one root-task
construction and exactly one enqueue. -/
theorem c4_root_task_seeding_witness :
    (run { configuredThreads := none, ncores := 1, recordedStatus := none,
           rootOutcome := none }).events.countP isNewRootTaskEv = 1 ∧
    (run { configuredThreads := none, ncores := 1, recordedStatus := none,
           rootOutcome := none }).events.countP isEnqueueTaskEv = 1 := by
  have h := c4_root_task_seeding
    { configuredThreads := none, ncores := 1, recordedStatus := none,
      rootOutcome := none } 1 rfl (by decide)
  exact ⟨h.1, h.2.1⟩

/-- C5: `run` starts one thread per scheduler - the trace's thread-start
indices are exactly the `n` scheduler indices, each once - and every one of
the `n` thread joins happens before the final exit-cell load that produces
`run`'s return value; `start` performs init, then `run`, then cleanup, and
returns `run`'s exit code unchanged. -/
theorem c5_threads_started_and_joined (cfg : RunConfig) (n : Nat)
    (hn : default_sched_threads cfg.configuredThreads cfg.ncores = n) :
    (run cfg).events.filterMap threadStartIdx = (List.range n).reverse ∧
    (∃ pre js, (run cfg).events = pre ++ js ++ [RtEvent.loadExitCode] ∧
      js.length = n ∧ ∀ e ∈ js, isThreadJoinEv e = true) ∧
    (start cfg).1 = (run cfg).exitCode ∧
    (start cfg).2 = RtEvent.rtInit ::
      ((run cfg).events ++ [RtEvent.rtCleanup]) := by
  have hb := filterMap_build_flatten_nil threadStartIdx n (fun _ => rfl)
    (fun _ _ _ _ => rfl) (fun _ => rfl)
  refine ⟨?_, ?_, rfl, rfl⟩
  · cases ho : cfg.rootOutcome <;>
    · rw [run_events cfg n hn, ho]
      simp only [List.cons_append, List.filterMap_cons, List.filterMap_append,
        List.filterMap_reverse, List.filterMap_map, hb]
      simp [threadStartIdx, Function.comp_def, List.filterMap_eq_nil_iff,
        List.filterMap_some]
  · refine ⟨RtEvent.newSleeperList 0 :: RtEvent.newWorkQueue 1 ::
      (((List.range n).map (fun k =>
        [RtEvent.newEventLoop (2 + k), RtEvent.newScheduler k (2 + k) 1 0,
         RtEvent.makeHandle k])).flatten ++
       ([RtEvent.newRootTask 0, RtEvent.setOnExit, RtEvent.enqueueTask 0] ++
        (((List.range n).map RtEvent.threadStart).reverse ++
         (match cfg.rootOutcome with
          | none => []
          | some s => (List.range n).map RtEvent.sendShutdown ++
              [RtEvent.storeExitCode
                (if s then get_exit_status cfg.recordedStatus
                 else DEFAULT_ERROR_CODE)])))),
      ((List.range n).map RtEvent.threadJoin).reverse, ?_, ?_, ?_⟩
    · rw [run_events cfg n hn]
      simp [List.cons_append, List.append_assoc]
    · simp
    · intro e he
      rw [List.mem_reverse, List.mem_map] at he
      obtain ⟨k, _, rfl⟩ := he
      rfl

/-- C5 witness: with one scheduler the trace starts exactly thread 0. -/
theorem c5_threads_started_and_joined_witness :
    (run { configuredThreads := none, ncores := 1, recordedStatus := none,
           rootOutcome := none }).events.filterMap threadStartIdx =
      (List.range 1).reverse :=
  (c5_threads_started_and_joined
    { configuredThreads := none, ncores := 1, recordedStatus := none,
      rootOutcome := none } 1 rfl).1

/-- C6: when no thread count is configured, the thread count defaults to
the number of cores: `run` then creates one scheduler per core and starts
one thread per core. -/
theorem c6_default_core_count (cfg : RunConfig)
    (h : cfg.configuredThreads = none) :
    default_sched_threads cfg.configuredThreads cfg.ncores = cfg.ncores ∧
    (run cfg).scheds.length = cfg.ncores ∧
    (run cfg).events.countP isThreadStartEv = cfg.ncores := by
  have hd : default_sched_threads cfg.configuredThreads cfg.ncores =
      cfg.ncores := by
    simp [default_sched_threads, h]
  have hb := countP_build_flatten isThreadStartEv cfg.ncores (fun _ => rfl)
    (fun _ _ _ _ => rfl) (fun _ => rfl)
  refine ⟨hd, ?_, ?_⟩
  · rw [run_scheds_explicit cfg _ hd]; simp
  · cases ho : cfg.rootOutcome <;>
    · rw [run_events cfg _ hd, ho]
      simp only [List.countP_append, List.countP_cons, List.countP_nil,
        List.countP_reverse, List.countP_map, hb]
      simp [isThreadStartEv, Function.comp_def, List.countP_eq_zero,
        List.countP_eq_length]

/-- C6 witness: three cores and no configured count give three schedulers
and three thread starts. -/
theorem c6_default_core_count_witness :
    (run { configuredThreads := none, ncores := 3, recordedStatus := none,
           rootOutcome := none }).scheds.length = 3 ∧
    (run { configuredThreads := none, ncores := 3, recordedStatus := none,
           rootOutcome := none }).events.countP isThreadStartEv = 3 := by
  have h := c6_default_core_count
    { configuredThreads := none, ncores := 3, recordedStatus := none,
      rootOutcome := none } rfl
  exact ⟨h.2.1, h.2.2⟩

/-- C9: when the root task's termination callback runs, the trace shows the
`Shutdown` sends to all `n` scheduler handles as a block immediately before
the store of the exit code; the handle cell is emptied by that first
invocation, so invoking the callback again fails on the empty cell. -/
theorem c9_shutdown_then_store (cfg : RunConfig) (s : Bool)
    (h : cfg.rootOutcome = some s) (n : Nat)
    (hn : default_sched_threads cfg.configuredThreads cfg.ncores = n) :
    (∃ pre post, (run cfg).events = pre ++
      ((List.range n).map RtEvent.sendShutdown ++
        [RtEvent.storeExitCode (run cfg).exitCode]) ++ post) ∧
    (run cfg).events.countP isSendShutdownEv = n ∧
    (run cfg).finalCtx.handles = none ∧
    on_exit cfg.recordedStatus (run cfg).finalCtx s = none := by
  have hb := countP_build_flatten isSendShutdownEv n (fun _ => rfl)
    (fun _ _ _ _ => rfl) (fun _ => rfl)
  refine ⟨?_, ?_, ?_, ?_⟩
  · refine ⟨RtEvent.newSleeperList 0 :: RtEvent.newWorkQueue 1 ::
      (((List.range n).map (fun k =>
        [RtEvent.newEventLoop (2 + k), RtEvent.newScheduler k (2 + k) 1 0,
         RtEvent.makeHandle k])).flatten ++
       ([RtEvent.newRootTask 0, RtEvent.setOnExit, RtEvent.enqueueTask 0] ++
        ((List.range n).map RtEvent.threadStart).reverse)),
      ((List.range n).map RtEvent.threadJoin).reverse ++
        [RtEvent.loadExitCode], ?_⟩
    rw [run_events cfg n hn, h, run_exitCode_some cfg s h]
    simp [List.cons_append, List.append_assoc]
  · rw [run_events cfg n hn, h]
    simp only [List.countP_append, List.countP_cons, List.countP_nil,
      List.countP_reverse, List.countP_map, hb]
    simp [isSendShutdownEv, Function.comp_def, List.countP_eq_zero,
      List.countP_eq_length]
  · rw [run_finalCtx_some cfg s h]
  · rw [run_finalCtx_some cfg s h]
    rfl

/-- C9 witness: after a successful first invocation on one scheduler, the
handle cell is empty and a second invocation of the callback fails. -/
theorem c9_shutdown_then_store_witness :
    (run { configuredThreads := none, ncores := 1, recordedStatus := none,
           rootOutcome := some true }).events.countP isSendShutdownEv = 1 ∧
    on_exit none (run { configuredThreads := none, ncores := 1,
                        recordedStatus := none,
                        rootOutcome := some true }).finalCtx true = none := by
  have h := c9_shutdown_then_store
    { configuredThreads := none, ncores := 1, recordedStatus := none,
      rootOutcome := some true } true rfl 1 rfl
  exact ⟨h.2.1, h.2.2.2⟩

end RustRt
